import Mathlib

/-!
# TrickyTractor: the level runtime of `src/StateGame.cpp`

A shallow embedding of the per-level state `StateGame`: contact handling
(`handleDamage`), camera scrolling (`doScrolling`), the death sequence
(`handleDeath`), the highscore update (`doHighscore`), level restart
(`restartLevel`) and the simulation tick (`doInternalUpdate`).

Conventions of the embedding.

* C++ `float` values are exact rationals (`ℚ`); comparisons and arithmetic are
  the exact ones.
* `unsigned int` arithmetic is arithmetic on `Nat` modulo `2^32`; `int` values
  are `Int`.
* Calls into collaborators that only produce output (sounds, particles, screen
  shake, tweens) are recorded, in program order, in a list of `Effect`.
  Calls of `Game::switchState` are recorded in a list of `StateRequest`.
* Values read from collaborators (input queries, bounding box tests, the age of
  the state, the contacts the physics step reports) are inputs of the functions.
* Constants of `GameProperties.hpp` (namespace `GP`) are fields of the
  structure `GP`.
-/

namespace TrickyTractor

/-- Pair of floats, for `sf::Vector2f`. -/
structure Vector2f where
  x : ℚ
  y : ℚ
deriving DecidableEq

/-- Pair of ints, for `sf::Vector2i`. -/
structure Vector2i where
  x : Int
  y : Int
deriving DecidableEq

/-- Pair of unsigned ints, for `sf::Vector2u`. -/
structure Vector2u where
  x : Nat
  y : Nat
deriving DecidableEq

/-- Componentwise sum, `sf::Vector2f::operator+`. -/
def Vector2f.add (a b : Vector2f) : Vector2f := ⟨a.x + b.x, a.y + b.y⟩

/-- Scaling by a float, `sf::Vector2f::operator*`. -/
def Vector2f.scale (a : Vector2f) (k : ℚ) : Vector2f := ⟨a.x * k, a.y * k⟩

/-- The constants of `GameProperties.hpp` that `StateGame.cpp` reads. -/
structure GP where
  /-- Constant `GP::InvulnerabilityAge()`. -/
  InvulnerabilityAge : ℚ
  /-- Constant `GP::AllowedCollisionSpeed()`. -/
  AllowedCollisionSpeed : ℚ
  /-- Constant `GP::MaxCrystalDamage()`. -/
  MaxCrystalDamage : Nat
  /-- Constant `GP::ScreenSizeInGame()`. -/
  ScreenSizeInGame : Vector2f
  /-- Constant `GP::ScrollBoundary()`. -/
  ScrollBoundary : ℚ
  /-- Constant `GP::ScrollSpeedX()`. -/
  ScrollSpeedX : ℚ
  /-- Constant `GP::ScrollSpeedY()`. -/
  ScrollSpeedY : ℚ
  /-- Constant `GP::TileSizeInPixel()`. -/
  TileSizeInPixel : ℚ
  /-- Constant `GP::getLevelList().size()`. -/
  levelCount : Nat

/-- Output calls of `StateGame.cpp`, in the order the program issues them. -/
inductive Effect where
  /-- Call `getGame()->shake(GP::StrongShakeDuration(), GP::StrongShakeIntensity())` -/
  | shake
  /-- Call `m_overlay->flash(GP::StrongFlashDuration(), GP::StrongFlashColor())` -/
  | flash
  /-- Call `m_particlesBreak->Fire(n)`. -/
  | particlesBreakFire (n : Nat)
  /-- Call `m_sndCollision.play()`. -/
  | sndCollisionPlay
  /-- Call `m_sndAlarm<k>.stop()`. -/
  | sndAlarmStop (k : Nat)
  /-- Call `m_sndAlarm<k>.play()`. -/
  | sndAlarmPlay (k : Nat)
  /-- Call `m_tilemap->toggleObjectGroupVisibility()`. -/
  | toggleObjectGroupVisibility
  /-- Call `m_particlesBeam->Fire(n)`. -/
  | particlesBeamFire (n : Nat)
  /-- Call `m_target->setVerticalBeam(b)`. -/
  | setVerticalBeam (b : Bool)
  /-- Call `m_target->kill()`. -/
  | targetKill
  /-- The four `setVolume(getVolume() * 0.95f)` calls of `handleDeath`. -/
  | fadeVolumes
  /-- Call `m_particlesDust->kill()`. -/
  | particlesDustKill
  /-- Call `add(tw)` of the fade to black whose completion callback restarts the level -/
  | addDeathTween
  /-- The `update(elapsed)` calls on the drawables and the timer text that end
  `doInternalUpdate`. -/
  | updateVisuals
deriving DecidableEq

/-- Argument of a `getGame()->switchState(...)` call. -/
inductive StateRequest where
  /-- Request `std::make_shared<StateGame>(levelID, timer)`. -/
  | game (levelID : Int) (timer : ℚ)
  /-- Request `std::make_shared<StateMenu>()`. -/
  | menu
deriving DecidableEq

/-- The mutable data `StateGame.cpp` works on: the members of `StateGame`, the
damage counter of `m_target` and the camera offset of the `Game`. -/
structure StateGame where
  m_levelID : Int
  m_timer : ℚ
  m_startTimer : ℚ
  m_isDead : Bool
  m_alreadyTweening : Bool
  m_lastCollisionAge : ℚ
  m_lastBeamParticle : ℚ
  /-- Value of `m_target->getDamage()`; `m_target->setDamage(d)` stores `d` here
  (Target.hpp is not among the sources). -/
  damage : Nat
  /-- Value of `getGame()->getCamOffset()`. -/
  camOffset : Vector2f
  /-- Value of `m_tilemap->getMapSizeInTiles()`. -/
  mapSizeInTiles : Vector2u
deriving DecidableEq

/-- The constructor `StateGame::StateGame(int levelID, float timer)`: it
initialises `m_levelID`, `m_timer` and `m_startTimer`; `blank` carries the other
members as their in-class initialisers leave them. -/
def StateGame.ctor (blank : StateGame) (levelID : Int) (timer : ℚ) : StateGame :=
  { blank with m_levelID := levelID, m_timer := timer, m_startTimer := timer }

/-- The state a `switchState` request constructs, if it is a level state. -/
def StateRequest.construct (blank : StateGame) : StateRequest → Option StateGame
  | .game levelID timer => some (StateGame.ctor blank levelID timer)
  | .menu => none

/-- The loop over `m_damagingZones` in `handleDamage`: `hits` holds the result
of `BoundingBoxTest(damZone, m_target->getTarget())` for each zone in order. -/
def damagingZoneOverride : List Bool → Bool
  | [] => false
  | hit :: rest => if hit then true else damagingZoneOverride rest

/-- Alarm selection at the end of the severe branch of `handleDamage`. -/
def alarmEffects (damage : Nat) : List Effect :=
  if damage = 2 then [.sndAlarmStop 2, .sndAlarmStop 3, .sndAlarmPlay 1]
  else if damage = 3 then [.sndAlarmStop 1, .sndAlarmStop 3, .sndAlarmPlay 2]
  else if damage = 4 then [.sndAlarmStop 1, .sndAlarmStop 2, .sndAlarmPlay 3]
  else []

/-- Method `StateGame::handleDamage(float damage)`; `age` is `getAge()` and `hits` the
bounding box tests against the damaging zones. -/
def handleDamage (gp : GP) (s : StateGame) (age : ℚ) (hits : List Bool) (damage : ℚ) :
    StateGame × List Effect :=
  if s.m_isDead then (s, [])
  else if age < s.m_lastCollisionAge + gp.InvulnerabilityAge then (s, [])
  else
    if damage > gp.AllowedCollisionSpeed ∨ damagingZoneOverride hits = true then
      let newDamage : Nat := (s.damage + 1) % 4294967296
      let fx : List Effect := [.shake, .flash, .particlesBreakFire 20, .sndCollisionPlay]
      if newDamage > gp.MaxCrystalDamage then
        ({ s with m_isDead := true }, fx)
      else
        ({ s with damage := newDamage, m_lastCollisionAge := age }, fx ++ alarmEffects newDamage)
    else if damage > gp.AllowedCollisionSpeed / 4 then
      ({ s with m_lastCollisionAge := age }, [.particlesBreakFire 10, .sndCollisionPlay])
    else
      ({ s with m_lastCollisionAge := age }, [])

/-- The guard at the top of `handleDamage`: the contact is ignored. -/
def ignored (gp : GP) (s : StateGame) (age : ℚ) : Prop :=
  s.m_isDead = true ∨ age < s.m_lastCollisionAge + gp.InvulnerabilityAge

instance ignoredDecidable (gp : GP) (s : StateGame) (age : ℚ) :
    Decidable (ignored gp s age) := by
  unfold ignored; infer_instance

/-- A contact reported by the physics step: the bounding box tests against the
damaging zones at that moment and the impact speed passed to `handleDamage`. -/
structure Contact where
  hits : List Bool
  damage : ℚ
deriving DecidableEq

/-- A sequence of contacts, each delivered to `handleDamage` at its own age;
the effects are collected in order. -/
def runContacts (gp : GP) (s : StateGame) : List (ℚ × Contact) → StateGame × List Effect
  | [] => (s, [])
  | c :: cs =>
    let r := handleDamage gp s c.1 c.2.hits c.2.damage
    let r2 := runContacts gp r.1 cs
    (r2.1, r.2 ++ r2.2)

/-- The call `m_world->Step(elapsed, 6, 2)` as far as `StateGame` sees it: the
contact listener calls `handleDamage` once per reported contact, all at the
age of the running tick. -/
def worldStep (gp : GP) (s : StateGame) (age : ℚ) (contacts : List Contact) :
    StateGame × List Effect :=
  runContacts gp s (contacts.map fun c => (age, c))

/-- Modelled from the spec: `JamTemplate::MathHelper::clamp` (MathHelper.hpp is
not among the sources), taken as the standard clamp of a value to `[lo, hi]`. -/
def clamp (v lo hi : ℚ) : ℚ :=
  if v < lo then lo else if hi < v then hi else v

/-- Modelled from the spec: `Game::moveCam` (Game.hpp is not among the sources):
the camera offset is moved by the given vector. -/
def moveCam (cam v : Vector2f) : Vector2f := cam.add v

/-- Method `StateGame::doScrolling(float elapsed)`; `mps` is
`InputManager::getMousePositionScreen()` and `tps` the target position in
screen pixels (`mapCoordsToPixel(tpw, view) / int(GP::Zoom())`). -/
def doScrolling (gp : GP) (s : StateGame) (mps : Vector2f) (tps : Vector2i) (elapsed : ℚ) :
    StateGame :=
  if s.m_isDead then s
  else
    let mpsc : Vector2f :=
      ⟨clamp mps.x 0 gp.ScreenSizeInGame.x, clamp mps.y 0 gp.ScreenSizeInGame.y⟩
    let cam1 :=
      if mpsc.x < gp.ScrollBoundary then
        moveCam s.camOffset (Vector2f.scale ⟨-gp.ScrollSpeedX, 0⟩ elapsed)
      else s.camOffset
    let cam2 :=
      if mpsc.x > gp.ScreenSizeInGame.x - gp.ScrollBoundary then
        moveCam cam1 (Vector2f.scale ⟨gp.ScrollSpeedX, 0⟩ elapsed)
      else cam1
    let cam3 :=
      if (tps.y : ℚ) < gp.ScrollBoundary then
        let f : ℚ := if tps.y < 0 then 2 else 1
        moveCam cam2 (Vector2f.scale ⟨0, -gp.ScrollSpeedY * f⟩ elapsed)
      else cam2
    let cam4 :=
      if (tps.y : ℚ) > gp.ScreenSizeInGame.y - gp.ScrollBoundary then
        let f : ℚ := if (tps.y : ℚ) > gp.ScreenSizeInGame.y then 2 else 1
        moveCam cam3 (Vector2f.scale (Vector2f.scale ⟨0, gp.ScrollSpeedY⟩ f) elapsed)
      else cam3
    let cpx := cam4.x
    let cpy := cam4.y
    let cw := gp.ScreenSizeInGame.x
    let ch := gp.ScreenSizeInGame.y
    let msxi := s.mapSizeInTiles.x
    let msyi := s.mapSizeInTiles.y
    let msx : ℚ := (msxi : ℚ) * gp.TileSizeInPixel
    let msy : ℚ := (msyi : ℚ) * gp.TileSizeInPixel
    let cpxc := clamp cpx 0 (msx - cw)
    let cpyc := clamp cpy (-10 * gp.TileSizeInPixel) (msy - ch)
    { s with camOffset := ⟨cpxc, cpyc⟩ }

/-- Modelled from the spec: the highscore table of `loadHighscores` and
`saveHighscores` (HighScore.hpp is not among the sources), a table of best
times indexed by level; `scores.at(level_id)` has no value outside the table. -/
def scoresAt (scores : List ℚ) (level_id : Int) : Option ℚ :=
  if 0 ≤ level_id then scores[level_id.toNat]? else none

/-- The function `doHighscore(level_id, time)` of the anonymous namespace.
`stored` is the table in the store; the result is `none` when `scores.at`
throws, else the table in the store afterwards and whether `saveHighscores`
was called. -/
def doHighscore (stored : List ℚ) (level_id : Int) (time : ℚ) : Option (List ℚ × Bool) :=
  let scores := stored
  match scoresAt scores level_id with
  | none => none
  | some currentScore =>
    if time < currentScore ∨ currentScore = 0 then
      some (scores.set level_id.toNat time, true)
    else
      some (stored, false)

/-- Method `StateGame::restartLevel()`: the state it passes to `switchState`. -/
def restartLevel (s : StateGame) : List StateRequest :=
  [.game s.m_levelID s.m_startTimer]

/-- The loop of `handleDeath` over `InputHelper::getAllKeys()`: `released` holds
`InputManager::justReleased(k)` for each key in order. -/
def skipRequests (s : StateGame) : List Bool → List StateRequest
  | [] => []
  | k :: ks => (if k then restartLevel s else []) ++ skipRequests s ks

/-- Method `StateGame::handleDeath(float elapsed)`. -/
def handleDeath (gp : GP) (s : StateGame) (released : List Bool) (elapsed : ℚ) :
    StateGame × List StateRequest × List Effect :=
  let rq := skipRequests s released
  let cam := moveCam s.camOffset ⟨0, -gp.ScrollSpeedY * elapsed⟩
  let fx : List Effect :=
    if !s.m_alreadyTweening then [.targetKill, .fadeVolumes, .particlesDustKill, .addDeathTween]
    else [.targetKill, .fadeVolumes]
  ({ s with camOffset := cam, m_alreadyTweening := true }, rq, fx)

/-- Method `StateGame::playerIsInBlockingZone()`: `hits` holds the bounding box
test against each blocking zone in order. -/
def playerIsInBlockingZone : List Bool → Bool
  | [] => false
  | hit :: rest => if hit then true else playerIsInBlockingZone rest

/-- Everything one call of `doInternalUpdate` reads from its collaborators. -/
structure TickInput where
  elapsed : ℚ
  /-- Value of `getAge()` during the tick. -/
  age : ℚ
  /-- Value of `justReleased(GP::KeyToggleDrawObjectGroups())`. -/
  toggleJustReleased : Bool
  /-- Value of `justPressed(sf::Keyboard::R)`. -/
  rJustPressed : Bool
  /-- Contacts the physics step reports to the contact listener. -/
  contacts : List Contact
  /-- Value of `justPressed(sf::Keyboard::Escape)`. -/
  escapeJustPressed : Bool
  /-- Value of `pressed(sf::Mouse::Left)`. -/
  mouseLeftPressed : Bool
  /-- Value of `getMousePositionScreen()`. -/
  mps : Vector2f
  /-- Target position in screen pixels, as computed in `doScrolling`. -/
  tps : Vector2i
  /-- Value of `BoundingBoxTest(m_endZone, m_target->getTarget())`. -/
  endZoneOverlap : Bool
  /-- Bounding box tests against the blocking zones. -/
  blockingHits : List Bool
  /-- Value of `justReleased(k)` for each key of `getAllKeys()`. -/
  released : List Bool
deriving DecidableEq

/-- What one call of `doInternalUpdate` leaves behind. -/
structure TickResult where
  state : StateGame
  /-- The highscore table in the store. -/
  highscores : List ℚ
  /-- The `switchState` calls, in order. -/
  requests : List StateRequest
  effects : List Effect
  /-- The call ended by the exception of `scores.at` in `doHighscore`. -/
  threw : Bool
deriving DecidableEq

/-- Conversion of an `unsigned int` to `int`, as in passing `nextLevelID` to the
constructor of `StateGame`. -/
def toInt32 (n : Nat) : Int :=
  if n < 2147483648 then (n : Int) else (n : Int) - 4294967296

/-- The statements `m_timer += elapsed; m_lastBeamParticle -= elapsed;` that
open the alive branch of `doInternalUpdate`. -/
def advanceTimers (s : StateGame) (elapsed : ℚ) : StateGame :=
  { s with m_timer := s.m_timer + elapsed,
           m_lastBeamParticle := s.m_lastBeamParticle - elapsed }

/-- The block of `doInternalUpdate` guarded by `pressed(sf::Mouse::Left)`. -/
def fireBeam (s : StateGame) (mouseLeftPressed : Bool) : StateGame × List Effect :=
  if mouseLeftPressed then
    if s.m_lastBeamParticle ≤ 0 then
      ({ s with m_lastBeamParticle := 12 / 100 }, [.particlesBeamFire 1])
    else (s, [])
  else (s, [])

/-- The `switchState` call of the end zone block of `doInternalUpdate`:
`nextLevelID` is the unsigned `m_levelID + 1U`, compared with the number of
levels and passed to the constructor as an `int`. -/
def goalRequest (gp : GP) (s : StateGame) : List StateRequest :=
  let nextLevelID : Nat := ((s.m_levelID + 1) % 4294967296).toNat
  if nextLevelID ≠ gp.levelCount then [.game (toInt32 nextLevelID) 0] else [.menu]

/-- Method `StateGame::doInternalUpdate(float elapsed)`; `hs` is the highscore
table in the store. -/
def doInternalUpdate (gp : GP) (s : StateGame) (hs : List ℚ) (i : TickInput) : TickResult :=
  if !s.m_isDead then
    let s1 := advanceTimers s i.elapsed
    let fx1 : List Effect := if i.toggleJustReleased then [.toggleObjectGroupVisibility] else []
    let rq1 : List StateRequest := if i.rJustPressed then restartLevel s1 else []
    let st := worldStep gp s1 i.age i.contacts
    let rq2 : List StateRequest := if i.escapeJustPressed then [.menu] else []
    let beam := fireBeam st.1 i.mouseLeftPressed
    let s4 := doScrolling gp beam.1 i.mps i.tps i.elapsed
    let fx4 := fx1 ++ st.2 ++ beam.2
    let tail : List Effect :=
      [.setVerticalBeam (!playerIsInBlockingZone i.blockingHits), .updateVisuals]
    if i.endZoneOverlap then
      match doHighscore hs s4.m_levelID s4.m_timer with
      | none => ⟨s4, hs, rq1 ++ rq2, fx4, true⟩
      | some saved => ⟨s4, saved.1, rq1 ++ rq2 ++ goalRequest gp s4, fx4 ++ tail, false⟩
    else
      ⟨s4, hs, rq1 ++ rq2, fx4 ++ tail, false⟩
  else
    let d := handleDeath gp s i.released i.elapsed
    ⟨d.1, hs, d.2.1, d.2.2 ++ [.updateVisuals], false⟩

/-- Successive ticks; a tick that ends by the exception is the last one. -/
def runTicks (gp : GP) (s : StateGame) (hs : List ℚ) : List TickInput → StateGame × List ℚ
  | [] => (s, hs)
  | i :: is =>
    let r := doInternalUpdate gp s hs i
    if r.threw then (r.state, r.highscores) else runTicks gp r.state r.highscores is

/-- The state of an alive tick when `doScrolling` has returned. -/
def afterScrolling (gp : GP) (s : StateGame) (i : TickInput) : StateGame :=
  doScrolling gp
    (fireBeam (worldStep gp (advanceTimers s i.elapsed) i.age i.contacts).1
      i.mouseLeftPressed).1
    i.mps i.tps i.elapsed

/-! ## Concrete states and inputs -/

/-- Sample constants used in the concrete instances below. -/
def gpSample : GP :=
  { InvulnerabilityAge := 1 / 2, AllowedCollisionSpeed := 10, MaxCrystalDamage := 4,
    ScreenSizeInGame := ⟨200, 150⟩, ScrollBoundary := 30, ScrollSpeedX := 100,
    ScrollSpeedY := 100, TileSizeInPixel := 16, levelCount := 3 }

/-- Sample state: level 0, alive, damage tier 3, last processed contact at age 1. -/
def stSample : StateGame :=
  { m_levelID := 0, m_timer := 45, m_startTimer := 0, m_isDead := false,
    m_alreadyTweening := false, m_lastCollisionAge := 1, m_lastBeamParticle := 0,
    damage := 3, camOffset := ⟨0, 0⟩, mapSizeInTiles := ⟨40, 100⟩ }

/-- Sample state at the highest tier: `stSample` with damage tier 4. -/
def stWorn : StateGame := { stSample with damage := 4 }

/-- Three severe contacts at ages 5, 6 and 7. -/
def threeHits : List (ℚ × Contact) := [(5, ⟨[], 12⟩), (6, ⟨[true], 0⟩), (7, ⟨[], 12⟩)]

/-- Sample dead state whose camera is left of the map. -/
def stDeadLeft : StateGame := { stSample with m_isDead := true, camOffset := ⟨-5, 0⟩ }

/-- Sample alive state on a map 10 tiles (160 pixels) wide, narrower than the
screen of 200 pixels. -/
def stNarrow : StateGame := { stSample with mapSizeInTiles := ⟨10, 100⟩ }

/-- Sample alive state whose camera is far right of and below the map of
40 x 100 tiles (640 x 1600 pixels). -/
def stFarOut : StateGame := { stSample with camOffset := ⟨5000, 9000⟩ }

/-- Sample tick: one fifth of a second, no key, no contact, mouse and target in
the middle of the screen, the player inside the end zone. -/
def tickGoal : TickInput :=
  { elapsed := 1 / 5, age := 9, toggleJustReleased := false, rJustPressed := false,
    contacts := [], escapeJustPressed := false, mouseLeftPressed := false,
    mps := ⟨100, 75⟩, tps := ⟨100, 75⟩, endZoneOverlap := true, blockingHits := [],
    released := [] }

/-- Sample tick without contact, key or goal. -/
def tickPlain : TickInput := { tickGoal with endZoneOverlap := false }

/-- Sample tick in which `R` was just pressed. -/
def tickR : TickInput := { tickPlain with rJustPressed := true }

/-- Sample dead state: `stSample` with the dead flag set. -/
def stDead : StateGame := { stSample with m_isDead := true }

/-! ## Contact handling -/

/-- An ignored contact returns the state as it was, with no effect. -/
lemma handleDamage_of_ignored (gp : GP) (s : StateGame) (age : ℚ) (hits : List Bool)
    (damage : ℚ) (h : ignored gp s age) :
    handleDamage gp s age hits damage = (s, []) := by
  unfold handleDamage
  rcases h with h | h
  · simp [h]
  · simp [h]

/-- C1: a contact delivered while the player is dead, or while
`age < m_lastCollisionAge + InvulnerabilityAge`, is ignored entirely: the state
(damage tier, dead flag, `m_lastCollisionAge` and everything else) is unchanged
and no effect is issued, whatever the impact speed and the zone overlaps. -/
theorem handleDamage_ignored (gp : GP) (s : StateGame) (age : ℚ) (hits : List Bool)
    (damage : ℚ) (h : ignored gp s age) :
    (handleDamage gp s age hits damage).1 = s ∧
      (handleDamage gp s age hits damage).1.damage = s.damage ∧
      (handleDamage gp s age hits damage).1.m_isDead = s.m_isDead ∧
      (handleDamage gp s age hits damage).1.m_lastCollisionAge = s.m_lastCollisionAge ∧
      (handleDamage gp s age hits damage).2 = [] := by
  rw [handleDamage_of_ignored gp s age hits damage h]
  exact ⟨rfl, rfl, rfl, rfl, rfl⟩

/-- C1 at a concrete input: a contact at age 6/5 after a processed one at age 1
(window 1/2), inside a damaging zone and at speed 100, changes nothing. -/
theorem handleDamage_ignored_witness :
    ignored gpSample stSample (6 / 5) ∧
      (handleDamage gpSample stSample (6 / 5) [true] 100).1 = stSample ∧
      (handleDamage gpSample stSample (6 / 5) [true] 100).2 = [] :=
  have h : ignored gpSample stSample (6 / 5) := by
    norm_num [ignored, gpSample, stSample]
  ⟨h, (handleDamage_ignored gpSample stSample (6 / 5) [true] 100 h).1,
    (handleDamage_ignored gpSample stSample (6 / 5) [true] 100 h).2.2.2.2⟩

/-- The result of a processed contact, branch by branch. -/
lemma handleDamage_processed (gp : GP) (s : StateGame) (age : ℚ) (hits : List Bool)
    (damage : ℚ) (hproc : ¬ ignored gp s age) :
    handleDamage gp s age hits damage =
      if damage > gp.AllowedCollisionSpeed ∨ damagingZoneOverride hits = true then
        if (s.damage + 1) % 4294967296 > gp.MaxCrystalDamage then
          ({ s with m_isDead := true },
            [.shake, .flash, .particlesBreakFire 20, .sndCollisionPlay])
        else
          ({ s with damage := (s.damage + 1) % 4294967296, m_lastCollisionAge := age },
            [.shake, .flash, .particlesBreakFire 20, .sndCollisionPlay] ++
              alarmEffects ((s.damage + 1) % 4294967296))
      else if damage > gp.AllowedCollisionSpeed / 4 then
        ({ s with m_lastCollisionAge := age }, [.particlesBreakFire 10, .sndCollisionPlay])
      else
        ({ s with m_lastCollisionAge := age }, []) := by
  simp only [ignored, not_or] at hproc
  obtain ⟨hd, ha⟩ := hproc
  unfold handleDamage
  rw [if_neg hd, if_neg ha]

/-- C3 fails as stated: with `MaxCrystalDamage = 4`, a processed severe contact
(speed 12 against allowed 10) at tier 4 makes the player dead, and the tier of
the target is still 4: it was not incremented and is not `MaxCrystalDamage + 1`. -/
theorem handleDamage_lethal_counterexample :
    ¬ ignored gpSample stWorn 5 ∧
      (12 : ℚ) > gpSample.AllowedCollisionSpeed ∧
      (handleDamage gpSample stWorn 5 [] 12).1.m_isDead = true ∧
      (handleDamage gpSample stWorn 5 [] 12).1.damage = 4 ∧
      (handleDamage gpSample stWorn 5 [] 12).1.damage ≠ stWorn.damage + 1 ∧
      (handleDamage gpSample stWorn 5 [] 12).1.damage ≠ gpSample.MaxCrystalDamage + 1 := by
  have hp : ¬ ignored gpSample stWorn 5 := by
    norm_num [ignored, gpSample, stWorn, stSample]
  rw [handleDamage_processed _ _ _ _ _ hp]
  norm_num [gpSample, stWorn, stSample, damagingZoneOverride]
  exact hp

/-- C3, amended: a processed severe contact computes the incremented tier
`old + 1` (no 32-bit wrap); the player becomes dead exactly when `old + 1`
exceeds `MaxCrystalDamage`, and then the stored tier keeps its old value and
`m_lastCollisionAge` is not touched; otherwise the player stays alive and the
stored tier becomes `old + 1`. -/
theorem handleDamage_severe (gp : GP) (s : StateGame) (age : ℚ) (hits : List Bool)
    (damage : ℚ) (hproc : ¬ ignored gp s age)
    (hsev : damage > gp.AllowedCollisionSpeed ∨ damagingZoneOverride hits = true)
    (hw : s.damage + 1 < 4294967296) :
    ((handleDamage gp s age hits damage).1.m_isDead = true ↔
        s.damage + 1 > gp.MaxCrystalDamage) ∧
      (s.damage + 1 > gp.MaxCrystalDamage →
        (handleDamage gp s age hits damage).1 = { s with m_isDead := true }) ∧
      (¬ s.damage + 1 > gp.MaxCrystalDamage →
        (handleDamage gp s age hits damage).1.m_isDead = false ∧
          (handleDamage gp s age hits damage).1.damage = s.damage + 1) := by
  have hd : s.m_isDead = false := by
    simp only [ignored, not_or] at hproc
    simpa using hproc.1
  rw [handleDamage_processed gp s age hits damage hproc, if_pos hsev, Nat.mod_eq_of_lt hw]
  by_cases hk : s.damage + 1 > gp.MaxCrystalDamage
  · rw [if_pos hk]
    exact ⟨⟨fun _ => hk, fun _ => rfl⟩, fun _ => rfl, fun h => absurd hk h⟩
  · rw [if_neg hk]
    refine ⟨⟨fun h => ?_, fun h => absurd h hk⟩, fun h => absurd h hk, fun _ => ⟨hd, rfl⟩⟩
    simp only [hd] at h
    exact absurd h (by decide)

/-- C3 at the input of the scenario: allowed speed 10, tier 3, impact 12, no
zone overlap: the player stays alive and the tier becomes 4. -/
theorem handleDamage_severe_witness :
    ¬ ignored gpSample stSample 5 ∧
      ((12 : ℚ) > gpSample.AllowedCollisionSpeed ∨ damagingZoneOverride [] = true) ∧
      stSample.damage + 1 < 4294967296 ∧
      (handleDamage gpSample stSample 5 [] 12).1.m_isDead = false ∧
      (handleDamage gpSample stSample 5 [] 12).1.damage = 4 :=
  have hp : ¬ ignored gpSample stSample 5 := by norm_num [ignored, gpSample, stSample]
  have hs : (12 : ℚ) > gpSample.AllowedCollisionSpeed ∨ damagingZoneOverride [] = true :=
    Or.inl (by norm_num [gpSample])
  have hw : stSample.damage + 1 < 4294967296 := by decide
  have h := (handleDamage_severe gpSample stSample 5 [] 12 hp hs hw).2.2 (by decide)
  ⟨hp, hs, hw, h.1, h.2⟩

/-- After a processed contact that leaves the player alive, `m_lastCollisionAge`
is the age of that contact. -/
lemma handleDamage_rearm (gp : GP) (s : StateGame) (age : ℚ) (hits : List Bool)
    (damage : ℚ) (hproc : ¬ ignored gp s age) :
    (handleDamage gp s age hits damage).1.m_isDead = true ∨
      (handleDamage gp s age hits damage).1.m_lastCollisionAge = age := by
  rw [handleDamage_processed gp s age hits damage hproc]
  split_ifs
  · exact Or.inl rfl
  · exact Or.inr rfl
  · exact Or.inr rfl
  · exact Or.inr rfl

/-- One contact raises the stored tier by at most 1. -/
lemma handleDamage_damage_le (gp : GP) (s : StateGame) (age : ℚ) (hits : List Bool)
    (damage : ℚ) : (handleDamage gp s age hits damage).1.damage ≤ s.damage + 1 := by
  have hm : (s.damage + 1) % 4294967296 ≤ s.damage + 1 := Nat.mod_le _ _
  simp only [handleDamage]
  split_ifs <;> simp [hm]

/-- C9: of two successive contacts at ages `t1` and `t2 < t1 + InvulnerabilityAge`
(in particular for `t1 ≤ t2`) at most one gets past the ignore guard; across
the pair the tier rises by at most 1 and at most one of the two issues any
effect, whichever path the first one takes. -/
theorem handleDamage_pair (gp : GP) (s : StateGame) (t1 t2 : ℚ) (c1 c2 : Contact)
    (hw : t2 < t1 + gp.InvulnerabilityAge) :
    (ignored gp s t1 ∨
        ignored gp (handleDamage gp s t1 c1.hits c1.damage).1 t2) ∧
      (handleDamage gp (handleDamage gp s t1 c1.hits c1.damage).1 t2 c2.hits c2.damage).1.damage
        ≤ s.damage + 1 ∧
      ((handleDamage gp s t1 c1.hits c1.damage).2 = [] ∨
        (handleDamage gp (handleDamage gp s t1 c1.hits c1.damage).1 t2 c2.hits c2.damage).2
          = []) := by
  by_cases hi : ignored gp s t1
  · have h1 := handleDamage_of_ignored gp s t1 c1.hits c1.damage hi
    refine ⟨Or.inl hi, ?_, Or.inl (by rw [h1])⟩
    rw [h1]
    exact handleDamage_damage_le gp s t2 c2.hits c2.damage
  · have h2 : ignored gp (handleDamage gp s t1 c1.hits c1.damage).1 t2 := by
      rcases handleDamage_rearm gp s t1 c1.hits c1.damage hi with h | h
      · exact Or.inl h
      · exact Or.inr (by rw [h]; exact hw)
    have h3 := handleDamage_of_ignored gp _ t2 c2.hits c2.damage h2
    refine ⟨Or.inr h2, ?_, Or.inr (by rw [h3])⟩
    rw [h3]
    exact handleDamage_damage_le gp s t1 c1.hits c1.damage

/-- C9 at a concrete input: a severe contact at age 5 followed by one at age
26/5 (window 1/2): the second is ignored and the tier goes from 3 to 4 only. -/
theorem handleDamage_pair_witness :
    (26 / 5 : ℚ) < 5 + gpSample.InvulnerabilityAge ∧
      (handleDamage gpSample (handleDamage gpSample stSample 5 [] 12).1 (26 / 5) [] 12).1.damage
        ≤ 3 + 1 :=
  have hw : (26 / 5 : ℚ) < 5 + gpSample.InvulnerabilityAge := by norm_num [gpSample]
  ⟨hw, (handleDamage_pair gpSample stSample 5 (26 / 5) ⟨[], 12⟩ ⟨[], 12⟩ hw).2.1⟩

/-- Running a concatenation is running the parts in turn. -/
lemma runContacts_append (gp : GP) (s : StateGame) (pre post : List (ℚ × Contact)) :
    runContacts gp s (pre ++ post) =
      ((runContacts gp (runContacts gp s pre).1 post).1,
        (runContacts gp s pre).2 ++ (runContacts gp (runContacts gp s pre).1 post).2) := by
  induction pre generalizing s with
  | nil => simp [runContacts]
  | cons c cs ih => simp [runContacts, ih, List.append_assoc]

/-- A dead player stays as it is under any sequence of contacts. -/
lemma runContacts_dead (gp : GP) (s : StateGame) (hd : s.m_isDead = true)
    (cs : List (ℚ × Contact)) : runContacts gp s cs = (s, []) := by
  induction cs with
  | nil => rfl
  | cons c cs ih =>
    simp [runContacts, handleDamage_of_ignored gp s c.1 c.2.hits c.2.damage (Or.inl hd), ih]

/-- One contact keeps the tier within `0..MaxCrystalDamage` and does not lower it. -/
lemma handleDamage_tier (gp : GP) (s : StateGame) (age : ℚ) (hits : List Bool) (damage : ℚ)
    (hmax : gp.MaxCrystalDamage + 1 < 4294967296) (h0 : s.damage ≤ gp.MaxCrystalDamage) :
    (handleDamage gp s age hits damage).1.damage ≤ gp.MaxCrystalDamage ∧
      s.damage ≤ (handleDamage gp s age hits damage).1.damage := by
  have hw : (s.damage + 1) % 4294967296 = s.damage + 1 := Nat.mod_eq_of_lt (by omega)
  simp only [handleDamage, hw]
  split_ifs with h1 h2 h3 h4 h5
  · exact ⟨h0, le_refl _⟩
  · exact ⟨h0, le_refl _⟩
  · exact ⟨h0, le_refl _⟩
  · exact ⟨by simpa using h4, by simp⟩
  · exact ⟨h0, le_refl _⟩
  · exact ⟨h0, le_refl _⟩

/-- A sequence of contacts keeps the tier within `0..MaxCrystalDamage` and does
not lower it. -/
lemma runContacts_tier (gp : GP) (hmax : gp.MaxCrystalDamage + 1 < 4294967296)
    (cs : List (ℚ × Contact)) (s : StateGame) (h0 : s.damage ≤ gp.MaxCrystalDamage) :
    (runContacts gp s cs).1.damage ≤ gp.MaxCrystalDamage ∧
      s.damage ≤ (runContacts gp s cs).1.damage := by
  induction cs generalizing s with
  | nil => exact ⟨h0, le_refl _⟩
  | cons c cs ih =>
    have h1 := handleDamage_tier gp s c.1 c.2.hits c.2.damage hmax h0
    have h2 := ih (handleDamage gp s c.1 c.2.hits c.2.damage).1 h1.1
    exact ⟨h2.1, le_trans h1.2 h2.2⟩

/-- C4: from a tier within `0..MaxCrystalDamage` (with `MaxCrystalDamage + 1`
below `2^32`), after any sequence of contacts `pre ++ post` the tier is within
`0..MaxCrystalDamage` and not lower than after the earlier contacts `pre`; once
the dead flag is set it stays set, and the contacts delivered afterwards leave
the whole state unchanged and add no effect. -/
theorem runContacts_invariant (gp : GP) (s : StateGame) (pre post : List (ℚ × Contact))
    (hmax : gp.MaxCrystalDamage + 1 < 4294967296) (h0 : s.damage ≤ gp.MaxCrystalDamage) :
    (runContacts gp s (pre ++ post)).1.damage ≤ gp.MaxCrystalDamage ∧
      (runContacts gp s pre).1.damage ≤ (runContacts gp s (pre ++ post)).1.damage ∧
      ((runContacts gp s pre).1.m_isDead = true →
        (runContacts gp s (pre ++ post)).1.m_isDead = true ∧
          (runContacts gp s (pre ++ post)).1 = (runContacts gp s pre).1 ∧
          (runContacts gp s (pre ++ post)).2 = (runContacts gp s pre).2) := by
  have hpre := runContacts_tier gp hmax pre s h0
  have hpost := runContacts_tier gp hmax post (runContacts gp s pre).1 hpre.1
  rw [runContacts_append]
  refine ⟨hpost.1, hpost.2, fun hd => ?_⟩
  rw [runContacts_dead gp _ hd post]
  exact ⟨hd, rfl, by simp⟩

/-- C4 at a concrete input: from tier 3 (maximum 4) the first contact gives tier
4, the second kills, and the third leaves state and effects as they were. -/
theorem runContacts_invariant_witness :
    gpSample.MaxCrystalDamage + 1 < 4294967296 ∧ stSample.damage ≤ gpSample.MaxCrystalDamage ∧
      (runContacts gpSample stSample (threeHits.take 2)).1.m_isDead = true ∧
      (runContacts gpSample stSample (threeHits.take 2 ++ threeHits.drop 2)).1.damage
        ≤ gpSample.MaxCrystalDamage ∧
      (runContacts gpSample stSample (threeHits.take 2 ++ threeHits.drop 2)).1 =
        (runContacts gpSample stSample (threeHits.take 2)).1 ∧
      (runContacts gpSample stSample (threeHits.take 2 ++ threeHits.drop 2)).2 =
        (runContacts gpSample stSample (threeHits.take 2)).2 :=
  have hmax : gpSample.MaxCrystalDamage + 1 < 4294967296 := by decide
  have h0 : stSample.damage ≤ gpSample.MaxCrystalDamage := by decide
  have hd : (runContacts gpSample stSample (threeHits.take 2)).1.m_isDead = true := by
    norm_num [runContacts, threeHits, handleDamage, gpSample, stSample, damagingZoneOverride]
  have h := runContacts_invariant gpSample stSample (threeHits.take 2) (threeHits.drop 2) hmax h0
  ⟨hmax, h0, hd, h.1, (h.2.2 hd).2.1, (h.2.2 hd).2.2⟩

/-! ## Camera scrolling -/

/-- The standard clamp lands in a non-empty range. -/
lemma clamp_mem (v lo hi : ℚ) (h : lo ≤ hi) : lo ≤ clamp v lo hi ∧ clamp v lo hi ≤ hi := by
  unfold clamp
  split_ifs with h1 h2
  · exact ⟨le_refl _, h⟩
  · exact ⟨h, le_refl _⟩
  · exact ⟨not_lt.mp h1, not_lt.mp h2⟩

/-- C5 fails as stated: called with the dead flag set, `doScrolling` returns
before the clamp and a camera offset left of the map stays there (x = -5 < 0);
and on a map narrower than the screen the clamp range is empty, so the upper
bound wins and x = 160 - 200 = -40 < 0. -/
theorem doScrolling_counterexample :
    (doScrolling gpSample stDeadLeft ⟨100, 75⟩ ⟨100, 75⟩ (1 / 60)).camOffset.x = -5 ∧
      ¬ (0 ≤ (doScrolling gpSample stDeadLeft ⟨100, 75⟩ ⟨100, 75⟩ (1 / 60)).camOffset.x) ∧
      (doScrolling gpSample stNarrow ⟨100, 75⟩ ⟨100, 75⟩ (1 / 60)).camOffset.x = -40 ∧
      ¬ (0 ≤ (doScrolling gpSample stNarrow ⟨100, 75⟩ ⟨100, 75⟩ (1 / 60)).camOffset.x) := by
  have h1 : (doScrolling gpSample stDeadLeft ⟨100, 75⟩ ⟨100, 75⟩ (1 / 60)).camOffset.x = -5 := by
    simp [doScrolling, stDeadLeft, stSample]
  have h2 : (doScrolling gpSample stNarrow ⟨100, 75⟩ ⟨100, 75⟩ (1 / 60)).camOffset.x = -40 := by
    norm_num [doScrolling, stNarrow, stSample, gpSample, clamp, moveCam, Vector2f.add,
      Vector2f.scale]
  refine ⟨h1, ?_, h2, ?_⟩
  · rw [h1]; norm_num
  · rw [h2]; norm_num

/-- C5, amended: for every call of `doScrolling` with the player alive, on a map
at least as large as the view (`0 ≤ mapW·tile − screenW` and
`−10·tile ≤ mapH·tile − screenH`), the camera offset after the call satisfies
`0 ≤ x ≤ mapW·tile − screenW` and `−10·tile ≤ y ≤ mapH·tile − screenH`, whatever
the offset before, the mouse position, the target position and `elapsed`. -/
theorem doScrolling_bounds (gp : GP) (s : StateGame) (mps : Vector2f) (tps : Vector2i)
    (elapsed : ℚ) (halive : s.m_isDead = false)
    (hx : 0 ≤ (s.mapSizeInTiles.x : ℚ) * gp.TileSizeInPixel - gp.ScreenSizeInGame.x)
    (hy : -10 * gp.TileSizeInPixel ≤
      (s.mapSizeInTiles.y : ℚ) * gp.TileSizeInPixel - gp.ScreenSizeInGame.y) :
    0 ≤ (doScrolling gp s mps tps elapsed).camOffset.x ∧
      (doScrolling gp s mps tps elapsed).camOffset.x ≤
        (s.mapSizeInTiles.x : ℚ) * gp.TileSizeInPixel - gp.ScreenSizeInGame.x ∧
      -10 * gp.TileSizeInPixel ≤ (doScrolling gp s mps tps elapsed).camOffset.y ∧
      (doScrolling gp s mps tps elapsed).camOffset.y ≤
        (s.mapSizeInTiles.y : ℚ) * gp.TileSizeInPixel - gp.ScreenSizeInGame.y := by
  simp only [doScrolling, halive, Bool.false_eq_true, if_false]
  exact ⟨(clamp_mem _ _ _ hx).1, (clamp_mem _ _ _ hx).2, (clamp_mem _ _ _ hy).1,
    (clamp_mem _ _ _ hy).2⟩

/-- C5 at a concrete input: from the offset (5000, 9000) the call brings the
camera back to the far corner of the map, (440, 1450). -/
theorem doScrolling_bounds_witness :
    stFarOut.m_isDead = false ∧
      0 ≤ (stFarOut.mapSizeInTiles.x : ℚ) * gpSample.TileSizeInPixel
        - gpSample.ScreenSizeInGame.x ∧
      -10 * gpSample.TileSizeInPixel ≤
        (stFarOut.mapSizeInTiles.y : ℚ) * gpSample.TileSizeInPixel
          - gpSample.ScreenSizeInGame.y ∧
      (doScrolling gpSample stFarOut ⟨100, 75⟩ ⟨100, 75⟩ (1 / 60)).camOffset.x ≤
        (stFarOut.mapSizeInTiles.x : ℚ) * gpSample.TileSizeInPixel
          - gpSample.ScreenSizeInGame.x ∧
      (doScrolling gpSample stFarOut ⟨100, 75⟩ ⟨100, 75⟩ (1 / 60)).camOffset = ⟨440, 1450⟩ :=
  have ha : stFarOut.m_isDead = false := rfl
  have hx : 0 ≤ (stFarOut.mapSizeInTiles.x : ℚ) * gpSample.TileSizeInPixel
      - gpSample.ScreenSizeInGame.x := by
    norm_num [stFarOut, stSample, gpSample]
  have hy : -10 * gpSample.TileSizeInPixel ≤
      (stFarOut.mapSizeInTiles.y : ℚ) * gpSample.TileSizeInPixel
        - gpSample.ScreenSizeInGame.y := by
    norm_num [stFarOut, stSample, gpSample]
  ⟨ha, hx, hy,
    (doScrolling_bounds gpSample stFarOut ⟨100, 75⟩ ⟨100, 75⟩ (1 / 60) ha hx hy).2.1,
    by norm_num [doScrolling, stFarOut, stSample, gpSample, clamp, moveCam, Vector2f.add,
      Vector2f.scale]⟩

/-! ## Highscore update -/

/-- An entry of the table exists exactly at the indices `0 ≤ level_id` below its
length. -/
lemma scoresAt_eq_some (scores : List ℚ) (level_id : Int) (cur : ℚ)
    (h : scoresAt scores level_id = some cur) :
    0 ≤ level_id ∧ scores[level_id.toNat]? = some cur := by
  unfold scoresAt at h
  by_cases h0 : 0 ≤ level_id
  · rw [if_pos h0] at h; exact ⟨h0, h⟩
  · rw [if_neg h0] at h; exact absurd h (by simp)

/-- Reading back the entry just written. -/
lemma scoresAt_set_self (scores : List ℚ) (level_id : Int) (cur t : ℚ)
    (h : scoresAt scores level_id = some cur) :
    scoresAt (scores.set level_id.toNat t) level_id = some t := by
  obtain ⟨h0, hc⟩ := scoresAt_eq_some scores level_id cur h
  obtain ⟨hlt, _⟩ := List.getElem?_eq_some.mp hc
  unfold scoresAt
  rw [if_pos h0]
  exact List.getElem?_set_self hlt

/-- Writing one entry leaves the others as they are. -/
lemma scoresAt_set_ne (scores : List ℚ) (level_id j : Int) (t : ℚ) (h0 : 0 ≤ level_id)
    (hj : j ≠ level_id) :
    scoresAt (scores.set level_id.toNat t) j = scoresAt scores j := by
  unfold scoresAt
  by_cases hj0 : 0 ≤ j
  · rw [if_pos hj0, if_pos hj0]
    have hne : level_id.toNat ≠ j.toNat := by
      intro he
      apply hj
      have h1 := Int.toNat_of_nonneg h0
      have h2 := Int.toNat_of_nonneg hj0
      omega
    exact List.getElem?_set_ne hne
  · rw [if_neg hj0, if_neg hj0]

/-- C6: for a table with an entry `cur` for `level_id` and every time `t`: if
`t` is not better (neither `t < cur` nor `cur = 0`) the table is unchanged and
nothing is saved; if `t` is better the table is saved, it has the same length,
its entry for `level_id` is `t` and every other entry is as loaded. Applying
`doHighscore level_id t` a second time yields the same table as once. -/
theorem doHighscore_idempotent (stored : List ℚ) (level_id : Int) (t cur : ℚ)
    (hentry : scoresAt stored level_id = some cur) :
    (¬ (t < cur ∨ cur = 0) → doHighscore stored level_id t = some (stored, false)) ∧
      ((t < cur ∨ cur = 0) →
        ∃ saved, doHighscore stored level_id t = some (saved, true) ∧
          saved.length = stored.length ∧ scoresAt saved level_id = some t ∧
          ∀ j, j ≠ level_id → scoresAt saved j = scoresAt stored j) ∧
      (∃ once twice, doHighscore stored level_id t = some once ∧
        doHighscore once.1 level_id t = some twice ∧ twice.1 = once.1) := by
  obtain ⟨h0, _⟩ := scoresAt_eq_some stored level_id cur hentry
  have hset := scoresAt_set_self stored level_id cur t hentry
  refine ⟨fun hb => ?_, fun hb => ?_, ?_⟩
  · simp only [doHighscore, hentry, if_neg hb]
  · refine ⟨stored.set level_id.toNat t, ?_, List.length_set _ _ _, hset, fun j hj => ?_⟩
    · simp only [doHighscore, hentry, if_pos hb]
    · exact scoresAt_set_ne stored level_id j t h0 hj
  · by_cases hb : t < cur ∨ cur = 0
    · have h1 : doHighscore stored level_id t = some (stored.set level_id.toNat t, true) := by
        simp only [doHighscore, hentry, if_pos hb]
      by_cases hb2 : t < t ∨ t = 0
      · refine ⟨_, ((stored.set level_id.toNat t).set level_id.toNat t, true), h1, ?_, ?_⟩
        · simp only [doHighscore, hset, if_pos hb2]
        · exact List.set_set _ _ _ _
      · refine ⟨_, (stored.set level_id.toNat t, false), h1, ?_, rfl⟩
        simp only [doHighscore, hset, if_neg hb2]
    · refine ⟨(stored, false), (stored, false), ?_, ?_, rfl⟩
      · simp only [doHighscore, hentry, if_neg hb]
      · simp only [doHighscore, hentry, if_neg hb]

/-- C6 at a concrete input: the table [50, 0, 30], level 0, time 226/5 (45.2):
the time is better, the table becomes [226/5, 0, 30], and a second call with
the same time leaves it so. -/
theorem doHighscore_idempotent_witness :
    scoresAt [50, 0, 30] 0 = some 50 ∧
      doHighscore [50, 0, 30] 0 (226 / 5) = some ([226 / 5, 0, 30], true) ∧
      ∃ once twice, doHighscore [50, 0, 30] 0 (226 / 5) = some once ∧
        doHighscore once.1 0 (226 / 5) = some twice ∧ twice.1 = once.1 :=
  have he : scoresAt [50, 0, 30] 0 = some 50 := by simp [scoresAt]
  ⟨he, by norm_num [doHighscore, scoresAt],
    (doHighscore_idempotent [50, 0, 30] 0 (226 / 5) 50 he).2.2⟩

/-! ## The simulation tick -/

/-- Contact handling leaves level id, timer and start timer alone. -/
lemma handleDamage_frame (gp : GP) (s : StateGame) (age : ℚ) (hits : List Bool) (damage : ℚ) :
    (handleDamage gp s age hits damage).1.m_levelID = s.m_levelID ∧
      (handleDamage gp s age hits damage).1.m_timer = s.m_timer ∧
      (handleDamage gp s age hits damage).1.m_startTimer = s.m_startTimer := by
  simp only [handleDamage]
  split_ifs <;> exact ⟨rfl, rfl, rfl⟩

/-- A sequence of contacts leaves level id, timer and start timer alone. -/
lemma runContacts_frame (gp : GP) (cs : List (ℚ × Contact)) (s : StateGame) :
    (runContacts gp s cs).1.m_levelID = s.m_levelID ∧
      (runContacts gp s cs).1.m_timer = s.m_timer ∧
      (runContacts gp s cs).1.m_startTimer = s.m_startTimer := by
  induction cs generalizing s with
  | nil => exact ⟨rfl, rfl, rfl⟩
  | cons c cs ih =>
    have h1 := handleDamage_frame gp s c.1 c.2.hits c.2.damage
    have h2 := ih (handleDamage gp s c.1 c.2.hits c.2.damage).1
    exact ⟨h2.1.trans h1.1, h2.2.1.trans h1.2.1, h2.2.2.trans h1.2.2⟩

/-- Scrolling leaves level id, timer and start timer alone. -/
lemma doScrolling_frame (gp : GP) (s : StateGame) (mps : Vector2f) (tps : Vector2i)
    (elapsed : ℚ) :
    (doScrolling gp s mps tps elapsed).m_levelID = s.m_levelID ∧
      (doScrolling gp s mps tps elapsed).m_timer = s.m_timer ∧
      (doScrolling gp s mps tps elapsed).m_startTimer = s.m_startTimer := by
  simp only [doScrolling]
  split_ifs <;> exact ⟨rfl, rfl, rfl⟩

/-- The beam block leaves level id, timer and start timer alone. -/
lemma fireBeam_frame (s : StateGame) (b : Bool) :
    (fireBeam s b).1.m_levelID = s.m_levelID ∧ (fireBeam s b).1.m_timer = s.m_timer ∧
      (fireBeam s b).1.m_startTimer = s.m_startTimer := by
  unfold fireBeam
  split_ifs <;> exact ⟨rfl, rfl, rfl⟩

/-- Level id, timer and start timer when `doScrolling` has returned. -/
lemma afterScrolling_frame (gp : GP) (s : StateGame) (i : TickInput) :
    (afterScrolling gp s i).m_levelID = s.m_levelID ∧
      (afterScrolling gp s i).m_timer = s.m_timer + i.elapsed ∧
      (afterScrolling gp s i).m_startTimer = s.m_startTimer := by
  have hw := runContacts_frame gp (i.contacts.map fun c => (i.age, c))
    (advanceTimers s i.elapsed)
  have hb := fireBeam_frame (worldStep gp (advanceTimers s i.elapsed) i.age i.contacts).1
    i.mouseLeftPressed
  have hs := doScrolling_frame gp
    (fireBeam (worldStep gp (advanceTimers s i.elapsed) i.age i.contacts).1
      i.mouseLeftPressed).1 i.mps i.tps i.elapsed
  unfold afterScrolling
  unfold worldStep at hb hs ⊢
  exact ⟨hs.1.trans (hb.1.trans hw.1), hs.2.1.trans (hb.2.1.trans hw.2.1),
    hs.2.2.trans (hb.2.2.trans hw.2.2)⟩

/-- The alive branch of the tick, in terms of the state `doScrolling` returned. -/
lemma doInternalUpdate_alive (gp : GP) (s : StateGame) (hs : List ℚ) (i : TickInput)
    (halive : s.m_isDead = false) :
    doInternalUpdate gp s hs i =
      if i.endZoneOverlap then
        match doHighscore hs (afterScrolling gp s i).m_levelID (afterScrolling gp s i).m_timer with
        | none =>
          ⟨afterScrolling gp s i, hs,
            (if i.rJustPressed then restartLevel (advanceTimers s i.elapsed) else []) ++
              (if i.escapeJustPressed then [.menu] else []),
            (if i.toggleJustReleased then [.toggleObjectGroupVisibility] else []) ++
              (worldStep gp (advanceTimers s i.elapsed) i.age i.contacts).2 ++
              (fireBeam (worldStep gp (advanceTimers s i.elapsed) i.age i.contacts).1
                i.mouseLeftPressed).2, true⟩
        | some saved =>
          ⟨afterScrolling gp s i, saved.1,
            (if i.rJustPressed then restartLevel (advanceTimers s i.elapsed) else []) ++
              (if i.escapeJustPressed then [.menu] else []) ++
              goalRequest gp (afterScrolling gp s i),
            (if i.toggleJustReleased then [.toggleObjectGroupVisibility] else []) ++
              (worldStep gp (advanceTimers s i.elapsed) i.age i.contacts).2 ++
              (fireBeam (worldStep gp (advanceTimers s i.elapsed) i.age i.contacts).1
                i.mouseLeftPressed).2 ++
              [.setVerticalBeam (!playerIsInBlockingZone i.blockingHits), .updateVisuals],
            false⟩
      else
        ⟨afterScrolling gp s i, hs,
          (if i.rJustPressed then restartLevel (advanceTimers s i.elapsed) else []) ++
            (if i.escapeJustPressed then [.menu] else []),
          (if i.toggleJustReleased then [.toggleObjectGroupVisibility] else []) ++
            (worldStep gp (advanceTimers s i.elapsed) i.age i.contacts).2 ++
            (fireBeam (worldStep gp (advanceTimers s i.elapsed) i.age i.contacts).1
              i.mouseLeftPressed).2 ++
            [.setVerticalBeam (!playerIsInBlockingZone i.blockingHits), .updateVisuals],
          false⟩ := by
  unfold doInternalUpdate afterScrolling
  simp only [halive, Bool.not_false, if_true]

/-- The dead branch of the tick. -/
lemma doInternalUpdate_dead (gp : GP) (s : StateGame) (hs : List ℚ) (i : TickInput)
    (hd : s.m_isDead = true) :
    doInternalUpdate gp s hs i =
      ⟨(handleDeath gp s i.released i.elapsed).1, hs,
        (handleDeath gp s i.released i.elapsed).2.1,
        (handleDeath gp s i.released i.elapsed).2.2 ++ [.updateVisuals], false⟩ := by
  unfold doInternalUpdate
  simp only [hd, Bool.not_true, Bool.false_eq_true, if_false]

/-- With an entry for the level in the table, `doHighscore` returns. -/
lemma doHighscore_returns (stored : List ℚ) (level_id : Int) (t cur : ℚ)
    (hentry : scoresAt stored level_id = some cur) :
    ∃ res, doHighscore stored level_id t = some res := by
  by_cases hb : t < cur ∨ cur = 0
  · exact ⟨(stored.set level_id.toNat t, true), by simp only [doHighscore, hentry, if_pos hb]⟩
  · exact ⟨(stored, false), by simp only [doHighscore, hentry, if_neg hb]⟩

/-- For a level id `0 ≤ id` with `id + 1 < 2^31` the unsigned `nextLevelID` is
`id + 1`, in the comparison and in the constructed state. -/
lemma goalRequest_eq (gp : GP) (s : StateGame) (h0 : 0 ≤ s.m_levelID)
    (h1 : s.m_levelID + 1 < 2147483648) :
    goalRequest gp s =
      [if s.m_levelID + 1 ≠ (gp.levelCount : Int) then .game (s.m_levelID + 1) 0 else .menu] := by
  have hm : (s.m_levelID + 1) % 4294967296 = s.m_levelID + 1 :=
    Int.emod_eq_of_lt (by omega) (by omega)
  have hn : ((s.m_levelID + 1).toNat : Int) = s.m_levelID + 1 := Int.toNat_of_nonneg (by omega)
  have ht : toInt32 (s.m_levelID + 1).toNat = s.m_levelID + 1 := by
    unfold toInt32
    rw [if_pos (by omega)]
    exact hn
  unfold goalRequest
  simp only [hm, ht]
  by_cases hc : (s.m_levelID + 1).toNat = gp.levelCount
  · have hc2 : s.m_levelID + 1 = (gp.levelCount : Int) := by omega
    simp [hc, hc2]
  · have hc2 : s.m_levelID + 1 ≠ (gp.levelCount : Int) := by omega
    simp [hc, hc2]

/-- C7: in a tick that starts with the player alive and in which the player
overlaps the end zone (the highscore table having an entry for the level, and
`m_levelID + 1` fitting an `int`), `doHighscore` is run with `m_levelID` and the
level timer of this tick (`m_timer + elapsed`) and returns, and the last state
requested is the level `m_levelID + 1` with timer 0 when `m_levelID + 1` is not
the number of levels, and the menu when it is. -/
theorem doInternalUpdate_goal (gp : GP) (s : StateGame) (hs : List ℚ) (i : TickInput) (cur : ℚ)
    (halive : s.m_isDead = false) (hgoal : i.endZoneOverlap = true)
    (hentry : scoresAt hs s.m_levelID = some cur) (h1 : s.m_levelID + 1 < 2147483648) :
    (doInternalUpdate gp s hs i).threw = false ∧
      (∃ saved, doHighscore hs s.m_levelID (s.m_timer + i.elapsed) =
        some ((doInternalUpdate gp s hs i).highscores, saved)) ∧
      (doInternalUpdate gp s hs i).requests.getLast? =
        some (if s.m_levelID + 1 ≠ (gp.levelCount : Int) then .game (s.m_levelID + 1) 0
          else .menu) := by
  obtain ⟨hl, ht, _⟩ := afterScrolling_frame gp s i
  obtain ⟨h0, _⟩ := scoresAt_eq_some hs s.m_levelID cur hentry
  obtain ⟨res, hres⟩ := doHighscore_returns hs s.m_levelID (s.m_timer + i.elapsed) cur hentry
  have hg := goalRequest_eq gp (afterScrolling gp s i) (by rw [hl]; exact h0) (by rw [hl]; exact h1)
  rw [hl] at hg
  rw [doInternalUpdate_alive gp s hs i halive, if_pos hgoal, hl, ht, hres]
  refine ⟨rfl, ⟨res.2, rfl⟩, ?_⟩
  simp only [hg]
  exact List.getLast?_concat _

/-- C7 at the input of the scenario: level 0 of 3, timer 45 + 1/5 = 45.2 at the
goal, stored highscore 50: the stored highscore becomes 226/5 (45.2) and the
state requested last is level 1 with timer 0. -/
theorem doInternalUpdate_goal_witness :
    stSample.m_isDead = false ∧ tickGoal.endZoneOverlap = true ∧
      scoresAt [50, 0, 30] stSample.m_levelID = some 50 ∧
      stSample.m_levelID + 1 < 2147483648 ∧
      doHighscore [50, 0, 30] 0 (45 + 1 / 5) = some ([226 / 5, 0, 30], true) ∧
      (∃ saved, doHighscore [50, 0, 30] stSample.m_levelID (stSample.m_timer + tickGoal.elapsed)
        = some ((doInternalUpdate gpSample stSample [50, 0, 30] tickGoal).highscores, saved)) ∧
      (doInternalUpdate gpSample stSample [50, 0, 30] tickGoal).requests.getLast? =
        some (.game 1 0) :=
  have he : scoresAt [50, 0, 30] stSample.m_levelID = some 50 := by simp [scoresAt, stSample]
  have h1 : stSample.m_levelID + 1 < 2147483648 := by decide
  have h := doInternalUpdate_goal gpSample stSample [50, 0, 30] tickGoal 50 rfl rfl he h1
  ⟨rfl, rfl, he, h1, by norm_num [doHighscore, scoresAt], h.2.1, h.2.2⟩

/-- The state an alive tick leaves is the one `doScrolling` returned. -/
lemma doInternalUpdate_alive_state (gp : GP) (s : StateGame) (hs : List ℚ) (i : TickInput)
    (halive : s.m_isDead = false) :
    (doInternalUpdate gp s hs i).state = afterScrolling gp s i := by
  rw [doInternalUpdate_alive gp s hs i halive]
  by_cases hg : i.endZoneOverlap = true
  · rw [if_pos hg]
    split <;> rfl
  · rw [if_neg hg]

/-- The requests of an alive tick start with those of the `R` key. -/
lemma doInternalUpdate_alive_requests (gp : GP) (s : StateGame) (hs : List ℚ) (i : TickInput)
    (halive : s.m_isDead = false) :
    ∃ rest, (doInternalUpdate gp s hs i).requests =
      (if i.rJustPressed then restartLevel (advanceTimers s i.elapsed) else []) ++ rest := by
  rw [doInternalUpdate_alive gp s hs i halive]
  by_cases hg : i.endZoneOverlap = true
  · rw [if_pos hg]
    split
    · exact ⟨_, rfl⟩
    · exact ⟨_, List.append_assoc _ _ _⟩
  · rw [if_neg hg]
    exact ⟨_, rfl⟩

/-- A tick leaves level id and start timer alone. -/
lemma doInternalUpdate_frame (gp : GP) (s : StateGame) (hs : List ℚ) (i : TickInput) :
    (doInternalUpdate gp s hs i).state.m_levelID = s.m_levelID ∧
      (doInternalUpdate gp s hs i).state.m_startTimer = s.m_startTimer := by
  cases hd : s.m_isDead
  · obtain ⟨hl, _, ht⟩ := afterScrolling_frame gp s i
    rw [doInternalUpdate_alive_state gp s hs i hd]
    exact ⟨hl, ht⟩
  · rw [doInternalUpdate_dead gp s hs i hd]
    exact ⟨rfl, rfl⟩

/-- Any number of ticks leaves level id and start timer alone. -/
lemma runTicks_frame (gp : GP) (inputs : List TickInput) (s : StateGame) (hs : List ℚ) :
    (runTicks gp s hs inputs).1.m_levelID = s.m_levelID ∧
      (runTicks gp s hs inputs).1.m_startTimer = s.m_startTimer := by
  induction inputs generalizing s hs with
  | nil => exact ⟨rfl, rfl⟩
  | cons i is ih =>
    have h1 := doInternalUpdate_frame gp s hs i
    simp only [runTicks]
    split_ifs
    · exact h1
    · have h2 := ih (doInternalUpdate gp s hs i).state (doInternalUpdate gp s hs i).highscores
      exact ⟨h2.1.trans h1.1, h2.2.trans h1.2⟩

/-- C8: for a level state constructed as `StateGame(levelID, t0)`, after any
ticks `restartLevel` requests the level `levelID` with timer `t0`, and the state
so constructed has timer and start timer `t0`. In a further tick of the state
reached: if the player is dead the tick does not depend on `R` being just
pressed, and requests nothing when no key was just released; if the player is
alive and `R` was just pressed, the first request is that restart. -/
theorem restartLevel_start_timer (gp : GP) (blank : StateGame) (levelID : Int) (t0 : ℚ)
    (hs : List ℚ) (inputs : List TickInput) (i : TickInput) :
    restartLevel (runTicks gp (StateGame.ctor blank levelID t0) hs inputs).1 =
        [.game levelID t0] ∧
      (∀ blank2, ∃ st, StateRequest.construct blank2 (.game levelID t0) = some st ∧
        st.m_levelID = levelID ∧ st.m_timer = t0 ∧ st.m_startTimer = t0) ∧
      ((runTicks gp (StateGame.ctor blank levelID t0) hs inputs).1.m_isDead = true →
        (∀ b, doInternalUpdate gp (runTicks gp (StateGame.ctor blank levelID t0) hs inputs).1
            (runTicks gp (StateGame.ctor blank levelID t0) hs inputs).2
            { i with rJustPressed := b } =
          doInternalUpdate gp (runTicks gp (StateGame.ctor blank levelID t0) hs inputs).1
            (runTicks gp (StateGame.ctor blank levelID t0) hs inputs).2 i) ∧
        ((∀ k ∈ i.released, k = false) →
          (doInternalUpdate gp (runTicks gp (StateGame.ctor blank levelID t0) hs inputs).1
            (runTicks gp (StateGame.ctor blank levelID t0) hs inputs).2 i).requests = [])) ∧
      ((runTicks gp (StateGame.ctor blank levelID t0) hs inputs).1.m_isDead = false →
        i.rJustPressed = true →
        (doInternalUpdate gp (runTicks gp (StateGame.ctor blank levelID t0) hs inputs).1
          (runTicks gp (StateGame.ctor blank levelID t0) hs inputs).2 i).requests.head? =
          some (.game levelID t0)) := by
  obtain ⟨hl, ht⟩ := runTicks_frame gp inputs (StateGame.ctor blank levelID t0) hs
  have hl2 : (runTicks gp (StateGame.ctor blank levelID t0) hs inputs).1.m_levelID = levelID := hl
  have ht2 : (runTicks gp (StateGame.ctor blank levelID t0) hs inputs).1.m_startTimer = t0 := ht
  refine ⟨?_, fun blank2 => ⟨StateGame.ctor blank2 levelID t0, rfl, rfl, rfl, rfl⟩, ?_, ?_⟩
  · unfold restartLevel
    rw [hl2, ht2]
  · intro hd
    refine ⟨fun b => ?_, fun hk => ?_⟩
    · rw [doInternalUpdate_dead gp _ _ _ hd, doInternalUpdate_dead gp _ _ _ hd]
    · rw [doInternalUpdate_dead gp _ _ _ hd]
      have hskip : ∀ (st : StateGame) (ks : List Bool), (∀ k ∈ ks, k = false) →
          skipRequests st ks = [] := by
        intro st ks
        induction ks with
        | nil => intro _; rfl
        | cons k ks ih =>
          intro h
          have hk0 : k = false := h k (List.mem_cons_self _ _)
          have hrest := ih (fun x hx => h x (List.mem_cons_of_mem _ hx))
          simp [skipRequests, hk0, hrest]
      simp only [handleDeath]
      exact hskip _ _ hk
  · intro ha hr
    obtain ⟨rest, hrest⟩ := doInternalUpdate_alive_requests gp _
      (runTicks gp (StateGame.ctor blank levelID t0) hs inputs).2 i ha
    have hrl : restartLevel
        (advanceTimers (runTicks gp (StateGame.ctor blank levelID t0) hs inputs).1 i.elapsed) =
        [.game levelID t0] := by
      unfold restartLevel advanceTimers
      simp only [hl2, ht2]
    rw [hrest, if_pos hr, hrl]
    rfl

/-- C8 at a concrete input: level 2 started with timer 7/2; after two ticks the
player is alive, `restartLevel` asks for level 2 with timer 7/2, and a tick
with `R` just pressed issues that request first. -/
theorem restartLevel_start_timer_witness :
    (runTicks gpSample (StateGame.ctor stSample 2 (7 / 2)) [50, 0, 30]
        [tickPlain, tickPlain]).1.m_isDead = false ∧
      tickR.rJustPressed = true ∧
      restartLevel (runTicks gpSample (StateGame.ctor stSample 2 (7 / 2)) [50, 0, 30]
        [tickPlain, tickPlain]).1 = [.game 2 (7 / 2)] ∧
      (doInternalUpdate gpSample
        (runTicks gpSample (StateGame.ctor stSample 2 (7 / 2)) [50, 0, 30]
          [tickPlain, tickPlain]).1
        (runTicks gpSample (StateGame.ctor stSample 2 (7 / 2)) [50, 0, 30]
          [tickPlain, tickPlain]).2 tickR).requests.head? = some (.game 2 (7 / 2)) :=
  have ha : (runTicks gpSample (StateGame.ctor stSample 2 (7 / 2)) [50, 0, 30]
      [tickPlain, tickPlain]).1.m_isDead = false := by
    simp [runTicks, doInternalUpdate, tickPlain, tickGoal, doScrolling, fireBeam, worldStep,
      runContacts, advanceTimers, StateGame.ctor, stSample]
  have h := restartLevel_start_timer gpSample stSample 2 (7 / 2) [50, 0, 30]
    [tickPlain, tickPlain] tickR
  ⟨ha, rfl, h.1, h.2.2.2 ha rfl⟩

/-! ## The camera while the player is dead -/

/-- C10 fails as stated: a tick that starts with the dead flag set runs
`handleDeath`, which moves the camera up by `ScrollSpeedY * elapsed`; with
speed 100 and a tick of 1/5 the offset goes from (0, 0) to (0, -20). -/
theorem dead_tick_counterexample :
    stDead.m_isDead = true ∧ stDead.camOffset = ⟨0, 0⟩ ∧
      (doInternalUpdate gpSample stDead [50, 0, 30] tickPlain).state.camOffset = ⟨0, -20⟩ ∧
      (doInternalUpdate gpSample stDead [50, 0, 30] tickPlain).state.camOffset
        ≠ stDead.camOffset := by
  have h : (doInternalUpdate gpSample stDead [50, 0, 30] tickPlain).state.camOffset
      = ⟨0, -20⟩ := by
    rw [doInternalUpdate_dead gpSample stDead _ _ rfl]
    norm_num [handleDeath, moveCam, Vector2f.add, stDead, stSample, gpSample, tickPlain,
      tickGoal]
  refine ⟨rfl, rfl, h, ?_⟩
  rw [h]
  simp [stDead, stSample]

/-- C10, amended: with the dead flag set `doScrolling` changes nothing; a tick
that starts with the dead flag set leaves the x offset of the camera as it was
and lowers the y offset by `ScrollSpeedY * elapsed` (the scroll up of
`handleDeath`), so the offset is unchanged exactly when that product is 0;
mouse and target position have no influence. -/
theorem dead_tick_camera (gp : GP) (s : StateGame) (hs : List ℚ) (i : TickInput)
    (mps : Vector2f) (tps : Vector2i) (elapsed : ℚ) (hd : s.m_isDead = true) :
    doScrolling gp s mps tps elapsed = s ∧
      (doInternalUpdate gp s hs i).state.camOffset =
        ⟨s.camOffset.x, s.camOffset.y - gp.ScrollSpeedY * i.elapsed⟩ ∧
      ((doInternalUpdate gp s hs i).state.camOffset = s.camOffset ↔
        gp.ScrollSpeedY * i.elapsed = 0) := by
  have hcam : (doInternalUpdate gp s hs i).state.camOffset =
      ⟨s.camOffset.x, s.camOffset.y - gp.ScrollSpeedY * i.elapsed⟩ := by
    rw [doInternalUpdate_dead gp s hs i hd]
    simp only [handleDeath, moveCam, Vector2f.add, add_zero, neg_mul, sub_eq_add_neg]
  refine ⟨by simp [doScrolling, hd], hcam, ?_⟩
  rw [hcam]
  constructor
  · intro h
    have hy := congrArg Vector2f.y h
    simp only at hy
    linarith
  · intro h
    rw [h, sub_zero]

/-- C10 at a concrete input: the dead sample state, a tick of 1/5 with scroll
speed 100: `doScrolling` changes nothing and the tick moves the camera to
(0, 0 - 100 * (1/5)). -/
theorem dead_tick_camera_witness :
    stDead.m_isDead = true ∧
      doScrolling gpSample stDead ⟨0, 0⟩ ⟨0, -40⟩ (1 / 5) = stDead ∧
      (doInternalUpdate gpSample stDead [50, 0, 30] tickPlain).state.camOffset =
        ⟨stDead.camOffset.x, stDead.camOffset.y - gpSample.ScrollSpeedY * tickPlain.elapsed⟩ :=
  have h := dead_tick_camera gpSample stDead [50, 0, 30] tickPlain ⟨0, 0⟩ ⟨0, -40⟩ (1 / 5) rfl
  ⟨rfl, h.1, h.2.1⟩

end TrickyTractor
